import Mathlib

/-!
Shallow embedding of `src/kcylon.c` (benjamin-james/kcylon), a kernel module
driving 10 LEDs in a cylon sweep whose speed is modulated by two buttons
through a shared counter `button_level`, together with theorems settling the
specification claims about it.

Conventions: C `int` values are modelled as `Int`, C `unsigned int` values as
`Nat` with an explicit `% 2 ^ 32` where overflow could matter; GPIO output
state is modelled as a boolean per indicator index; the irq handler is a pure
function from its arguments and the current level to the new level and its
return token.
-/

namespace KCylon

/-- NUM_LEDS macro from kcylon.c (10 LEDs). -/
def NUM_LEDS : Nat := 10

/-- led_pins array: the GPIO pin numbers of the 10 LEDs, in array order. -/
def led_pins : List Nat := [65, 46, 26, 44, 68, 67, 47, 45, 69, 66]

/-- sleep_time static variable: base delay between cylon steps, in ms. -/
def sleep_time : Nat := 100

/-- button_pin_right static variable. -/
def button_pin_right : Nat := 27

/-- button_pin_left static variable. -/
def button_pin_left : Nat := 61

/-- ENODEV errno value (19); kcylon_init returns -ENODEV on an invalid pin. -/
def ENODEV : Int := 19

/-- Return token of an interrupt handler; kcylon_irq_handler always returns
IRQ_HANDLED. -/
inductive IrqReturn where
  | IRQ_NONE
  | IRQ_HANDLED
deriving DecidableEq, Repr

/-- kcylon_irq_handler (kcylon.c lines 217-234) as a pure function: given the
two registered irq numbers, the irq that fired and the current value of
`button_level`, it returns the new `button_level` and the handler's return
value. The left branch decrements and clamps at -10, the right branch
increments and clamps at 10, any other irq leaves the level unchanged, and
every path returns IRQ_HANDLED. -/
def kcylon_irq_handler (irq_number_left irq_number_right irq : Nat)
    (button_level : Int) : Int × IrqReturn :=
  if irq = irq_number_left then
    ((if button_level - 1 < -10 then -10 else button_level - 1), .IRQ_HANDLED)
  else if irq = irq_number_right then
    ((if button_level + 1 > 10 then 10 else button_level + 1), .IRQ_HANDLED)
  else
    (button_level, .IRQ_HANDLED)

/-- Folding kcylon_irq_handler over a sequence of input events (irq numbers),
starting from the initial level 0 set by kcylon_init. -/
def run_events (irq_number_left irq_number_right : Nat) (evs : List Nat) : Int :=
  evs.foldl (fun l irq => (kcylon_irq_handler irq_number_left irq_number_right irq l).1) 0

lemma handler_level_range (irqL irqR irq : Nat) (l : Int)
    (h1 : -10 ≤ l) (h2 : l ≤ 10) :
    -10 ≤ (kcylon_irq_handler irqL irqR irq l).1 ∧
      (kcylon_irq_handler irqL irqR irq l).1 ≤ 10 := by
  unfold kcylon_irq_handler
  split_ifs <;> simp <;> omega

lemma run_events_loop (irqL irqR : Nat) (evs : List Nat) (l : Int)
    (h1 : -10 ≤ l) (h2 : l ≤ 10) :
    -10 ≤ evs.foldl (fun l irq => (kcylon_irq_handler irqL irqR irq l).1) l ∧
      evs.foldl (fun l irq => (kcylon_irq_handler irqL irqR irq l).1) l ≤ 10 := by
  induction evs generalizing l with
  | nil => exact ⟨h1, h2⟩
  | cons e es ih =>
    simp only [List.foldl_cons]
    exact ih _ (handler_level_range irqL irqR e l h1 h2).1
      (handler_level_range irqL irqR e l h1 h2).2

/-- C1: for every sequence of input events, in any interleaving of left-button
and right-button irqs (and any other irq values), starting from the initial
level 0, the shared `button_level` remains within [-10, 10] after every
handler invocation. -/
theorem button_level_bounded (irq_number_left irq_number_right : Nat)
    (evs : List Nat) :
    -10 ≤ run_events irq_number_left irq_number_right evs ∧
      run_events irq_number_left irq_number_right evs ≤ 10 :=
  run_events_loop irq_number_left irq_number_right evs 0 (by omega) (by omega)

/-- C10: on each handler invocation, a left-button irq decreases the level by
one saturating at -10, a right-button irq increases it by one saturating at
10, any other irq leaves it unchanged, and the handler returns IRQ_HANDLED in
all cases (assuming the two button irq numbers are distinct, as they are for
two distinct GPIO lines). -/
theorem irq_handler_cases (irq_number_left irq_number_right irq : Nat)
    (l : Int) (hne : irq_number_left ≠ irq_number_right) :
    (irq = irq_number_left →
      (kcylon_irq_handler irq_number_left irq_number_right irq l).1 = max (l - 1) (-10)) ∧
    (irq = irq_number_right →
      (kcylon_irq_handler irq_number_left irq_number_right irq l).1 = min (l + 1) 10) ∧
    (irq ≠ irq_number_left → irq ≠ irq_number_right →
      (kcylon_irq_handler irq_number_left irq_number_right irq l).1 = l) ∧
    (kcylon_irq_handler irq_number_left irq_number_right irq l).2 = .IRQ_HANDLED := by
  unfold kcylon_irq_handler
  refine ⟨fun h => ?_, fun h => ?_, fun h1 h2 => ?_, ?_⟩
  · subst h
    simp only [if_pos rfl]
    split_ifs <;> omega
  · subst h
    rw [if_neg (fun hc => hne hc.symm), if_pos rfl]
    split_ifs <;> omega
  · rw [if_neg h1, if_neg h2]
  · split_ifs <;> rfl

/-- Witness for irq_handler_cases at irq numbers 1 (left), 2 (right), firing
irq 2 and level 5. -/
theorem irq_handler_cases_witness :
    (1 : Nat) ≠ 2 ∧
    (((2 : Nat) = 1 → (kcylon_irq_handler 1 2 2 5).1 = max (5 - 1) (-10)) ∧
     ((2 : Nat) = 2 → (kcylon_irq_handler 1 2 2 5).1 = min (5 + 1) 10) ∧
     ((2 : Nat) ≠ 1 → (2 : Nat) ≠ 2 → (kcylon_irq_handler 1 2 2 5).1 = 5) ∧
     (kcylon_irq_handler 1 2 2 5).2 = .IRQ_HANDLED) :=
  ⟨by decide, irq_handler_cases 1 2 2 5 (by decide)⟩

/-- C3 counterexample: the claim predicts bounce at the bound (after reaching
+10, the next same-direction event yields 9); in the code, 10 right-button
events (irq numbers: left 200, right 201) reach level 10 and an 11th
right-button event leaves the level at 10, not 9. -/
theorem bounce_policy_cex :
    run_events 200 201 (List.replicate 10 201) = 10 ∧
    run_events 200 201 (List.replicate 11 201) = 10 ∧ (10 : Int) ≠ 9 := by
  refine ⟨by decide, by decide, by decide⟩

/-- C3 amended: a signed unit step (+1 on the right-button irq, -1 on the
left-button irq) is applied on each event, and at the bounds the level
saturates (clamps): no direction state exists and no sign flip occurs, so a
further same-direction event at a bound is a no-op. Concretely, a
right-button event at level 10 leaves the level at 10, a left-button event at
level -10 leaves it at -10, and for every level l in [-10, 10] a
right-button event yields min (l + 1) 10 and a left-button event yields
max (l - 1) (-10). -/
theorem clamp_policy_amended (irq_number_left irq_number_right : Nat)
    (hne : irq_number_left ≠ irq_number_right) :
    (kcylon_irq_handler irq_number_left irq_number_right irq_number_right 10).1 = 10 ∧
    (kcylon_irq_handler irq_number_left irq_number_right irq_number_left (-10)).1 = -10 ∧
    (∀ l : Int, -10 ≤ l → l ≤ 10 →
      (kcylon_irq_handler irq_number_left irq_number_right irq_number_right l).1 =
        min (l + 1) 10) ∧
    (∀ l : Int, -10 ≤ l → l ≤ 10 →
      (kcylon_irq_handler irq_number_left irq_number_right irq_number_left l).1 =
        max (l - 1) (-10)) := by
  unfold kcylon_irq_handler
  refine ⟨?_, ?_, ?_, ?_⟩
  · rw [if_neg (fun hc => hne hc.symm), if_pos rfl]
    norm_num
  · rw [if_pos rfl]
    norm_num
  · intro l h1 h2
    rw [if_neg (fun hc => hne hc.symm), if_pos rfl]
    split_ifs <;> omega
  · intro l h1 h2
    rw [if_pos rfl]
    split_ifs <;> omega

/-- Witness for clamp_policy_amended at irq numbers 200 (left), 201 (right),
with the right-button universal instantiated at level 3 and the left-button
universal at level 5. -/
theorem clamp_policy_amended_witness :
    (200 : Nat) ≠ 201 ∧
    (kcylon_irq_handler 200 201 201 10).1 = 10 ∧
    (kcylon_irq_handler 200 201 200 (-10)).1 = -10 ∧
    (kcylon_irq_handler 200 201 201 3).1 = min (3 + 1) 10 ∧
    (kcylon_irq_handler 200 201 200 5).1 = max (5 - 1) (-10) :=
  ⟨by decide, (clamp_policy_amended 200 201 (by decide)).1,
    (clamp_policy_amended 200 201 (by decide)).2.1,
    (clamp_policy_amended 200 201 (by decide)).2.2.1 3 (by decide) (by decide),
    (clamp_policy_amended 200 201 (by decide)).2.2.2 5 (by decide) (by decide)⟩

/-- Local state of the cylon worker thread (kcylon.c lines 99-101):
`current_led` and `last_led` are C ints, `rising` a bool; initial values are
current_led = 0, last_led = 0, rising = true. -/
structure SweepState where
  current_led : Int
  last_led : Int
  rising : Bool
deriving DecidableEq, Repr

/-- Initial sweep state (kcylon.c lines 99-101). -/
def initState : SweepState := ⟨0, 0, true⟩

/-- Position update of one loop iteration (kcylon.c lines 111-122),
generalized over the LED count N: the source fixes N = NUM_LEDS = 10, so the
literal 9 appears there as N - 1. `last_led` receives the old `current_led`,
`current_led` is incremented or decremented according to `rising`, then the
two sequential clamp tests run: above N - 1 it clamps to N - 1 and clears
`rising`; below 0 it clamps to 0 and sets `rising`. -/
def sweep_advance (N : Nat) (s : SweepState) : SweepState :=
  let last_led := s.current_led
  let current_led := if s.rising then s.current_led + 1 else s.current_led - 1
  let p := if current_led > (N : Int) - 1 then ((N : Int) - 1, false)
           else (current_led, s.rising)
  let q := if p.1 < 0 then ((0 : Int), true) else p
  ⟨q.1, last_led, q.2⟩

/-- Sweep state at the start of tick t (t = 0 is the first tick); the LED lit
during tick t is `(sweepStateAt t).current_led`. -/
def sweepStateAt (t : Nat) : SweepState := (sweep_advance NUM_LEDS)^[t] initState

/-- Triangle wave 0,1,...,9,9,8,...,1,0,0,1,... of period 20 = 2 * NUM_LEDS:
each boundary value (0 and 9) occurs exactly twice in a row. -/
def triangle (t : Nat) : Int :=
  let r := t % 20
  if r ≤ 9 then (r : Int) else ((19 - r : Nat) : Int)

set_option maxRecDepth 4000 in
lemma sweepStateAt_period : sweepStateAt 20 = initState := by decide

lemma sweepStateAt_add_20 (t : Nat) : sweepStateAt (t + 20) = sweepStateAt t := by
  unfold sweepStateAt
  rw [Function.iterate_add_apply]
  have h : (sweep_advance NUM_LEDS)^[20] initState = initState := sweepStateAt_period
  rw [h]

lemma sweepStateAt_mod (t : Nat) : sweepStateAt t = sweepStateAt (t % 20) := by
  induction t using Nat.strong_induction_on with
  | _ t ih =>
    by_cases h : t < 20
    · rw [Nat.mod_eq_of_lt h]
    · have h20 : t - 20 + 20 = t := by omega
      have hs : sweepStateAt t = sweepStateAt (t - 20) := by
        have := sweepStateAt_add_20 (t - 20)
        rw [h20] at this
        exact this
      have hm : (t - 20) % 20 = t % 20 := by omega
      rw [hs, ih (t - 20) (by omega), hm]

lemma sweepStateAt_triangle_lt (r : Nat) (h : r < 20) :
    (sweepStateAt r).current_led = triangle r := by
  revert r
  decide

/-- C4: with no input events, the LED index lit on tick t (the value of
`current_led` when `gpio_set_value(led_pins[current_led], true)` runs) is the
deterministic triangle wave 0,1,...,9,9,8,...,1,0,0,1,...: both boundary
values 0 and N-1 = 9 occur exactly twice in a row before the direction
reverses, for the configured N = NUM_LEDS = 10. -/
theorem sweep_triangle_wave (t : Nat) :
    (sweepStateAt t).current_led = triangle t := by
  rw [sweepStateAt_mod]
  have h1 : (sweepStateAt (t % 20)).current_led = triangle (t % 20) :=
    sweepStateAt_triangle_lt (t % 20) (Nat.mod_lt _ (by omega))
  have h2 : triangle (t % 20) = triangle t := by
    unfold triangle
    have : t % 20 % 20 = t % 20 := by omega
    rw [this]
  rw [h1, h2]

/-- One gpio_set_value call modelled as a write into the boolean indicator
array: op = (index, value). An out-of-range index leaves the list unchanged
(List.set is a no-op out of range); the invariants below keep indices in
range. -/
def led_write (leds : List Bool) (op : Nat × Bool) : List Bool := leds.set op.1 op.2

/-- Indicator writes issued by one loop iteration (kcylon.c lines 107-109),
in source order and generalized over the LED count N (the source fixes
N = NUM_LEDS = 10, so the guard's literal 9 is N - 1): if
`last_led >= 0 && last_led <= N-1`, turn the LED at `last_led` off; then turn
the LED at `current_led` on. -/
def tick_led_ops (N : Nat) (s : SweepState) : List (Nat × Bool) :=
  (if 0 ≤ s.last_led ∧ s.last_led ≤ (N : Int) - 1 then [(s.last_led.toNat, false)]
   else []) ++ [(s.current_led.toNat, true)]

/-- One full tick of the cylon loop: apply the tick's indicator writes to the
LED array, then advance the position state (kcylon.c lines 104-130, the delay
aside). -/
def cylon_tick (N : Nat) (p : SweepState × List Bool) : SweepState × List Bool :=
  (sweep_advance N p.1, (tick_led_ops N p.1).foldl led_write p.2)

/-- State after t ticks, starting from the initial sweep state with all N
indicators off. -/
def cylon_run (N t : Nat) : SweepState × List Bool :=
  (cylon_tick N)^[t] (initState, List.replicate N false)

/-- At most one of the N indicators is on. -/
def atMostOneOn (N : Nat) (leds : List Bool) : Prop :=
  ∀ i j : Nat, i < N → j < N → leds[i]? = some true → leds[j]? = some true → i = j

/-- Invariant of the cylon loop: position indices stay in [0, N-1] and the
LED array is either all-off (before the first tick) or exactly the LED at
`last_led` (the one lit by the most recent tick) is on. -/
def RunInv (N : Nat) (p : SweepState × List Bool) : Prop :=
  0 ≤ p.1.current_led ∧ p.1.current_led ≤ (N : Int) - 1 ∧
  0 ≤ p.1.last_led ∧ p.1.last_led ≤ (N : Int) - 1 ∧
  (p.2 = List.replicate N false ∨
   p.2 = (List.replicate N false).set p.1.last_led.toNat true)

lemma sweep_advance_bounds (N : Nat) (hN : 1 ≤ N) (s : SweepState)
    (h1 : 0 ≤ s.current_led) (h2 : s.current_led ≤ (N : Int) - 1) :
    0 ≤ (sweep_advance N s).current_led ∧
      (sweep_advance N s).current_led ≤ (N : Int) - 1 ∧
      (sweep_advance N s).last_led = s.current_led := by
  have hN' : (1 : Int) ≤ (N : Int) := by exact_mod_cast hN
  simp only [sweep_advance]
  split_ifs <;> simp <;> omega

lemma runInv_step (N : Nat) (hN : 1 ≤ N) (p : SweepState × List Bool)
    (h : RunInv N p) : RunInv N (cylon_tick N p) := by
  obtain ⟨h1, h2, h3, h4, h5⟩ := h
  have hb := sweep_advance_bounds N hN p.1 h1 h2
  have hops : tick_led_ops N p.1 =
      [(p.1.last_led.toNat, false), (p.1.current_led.toNat, true)] := by
    unfold tick_led_ops
    rw [if_pos ⟨h3, h4⟩]
    rfl
  refine ⟨hb.1, hb.2.1, ?_, ?_, Or.inr ?_⟩
  · show 0 ≤ (sweep_advance N p.1).last_led
    rw [hb.2.2]; exact h1
  · show (sweep_advance N p.1).last_led ≤ (N : Int) - 1
    rw [hb.2.2]; exact h2
  · show (tick_led_ops N p.1).foldl led_write p.2 =
      (List.replicate N false).set (sweep_advance N p.1).last_led.toNat true
    rw [hops, hb.2.2]
    show (p.2.set p.1.last_led.toNat false).set p.1.current_led.toNat true =
      (List.replicate N false).set p.1.current_led.toNat true
    rcases h5 with h5 | h5
    · rw [h5, List.set_replicate_self]
    · rw [h5, List.set_set, List.set_replicate_self]

lemma runInv_run (N : Nat) (hN : 1 ≤ N) (t : Nat) : RunInv N (cylon_run N t) := by
  have hN' : (1 : Int) ≤ (N : Int) := by exact_mod_cast hN
  induction t with
  | zero =>
    have h0 : cylon_run N 0 = (initState, List.replicate N false) := rfl
    rw [h0]
    refine ⟨?_, ?_, ?_, ?_, Or.inl rfl⟩ <;> simp only [initState] <;> omega
  | succ t ih =>
    have : cylon_run N (t + 1) = cylon_tick N (cylon_run N t) := by
      unfold cylon_run
      rw [Function.iterate_succ_apply']
    rw [this]
    exact runInv_step N hN _ ih

lemma replicate_false_ne_true (N i : Nat) :
    ¬ ((List.replicate N false)[i]? = some true) := by
  rw [List.getElem?_replicate]
  split <;> simp

lemma atMostOneOn_single (N k : Nat) :
    atMostOneOn N ((List.replicate N false).set k true) := by
  intro i j hi hj hti htj
  rw [List.getElem?_set] at hti htj
  by_cases hki : k = i
  · by_cases hkj : k = j
    · omega
    · rw [if_neg hkj] at htj
      exact absurd htj (replicate_false_ne_true N j)
  · rw [if_neg hki] at hti
    exact absurd hti (replicate_false_ne_true N i)

/-- C5: modelling gpio_set_value as writes into an N-element boolean array
that starts all-off, at the end of every tick at most one indicator is on,
for every N ≥ 1 and every number of ticks. -/
theorem at_most_one_led_on (N t : Nat) (hN : 1 ≤ N) :
    atMostOneOn N (cylon_run N t).2 := by
  rcases (runInv_run N hN t).2.2.2.2 with h5 | h5
  · rw [h5]
    intro i j hi hj hti _
    exact absurd hti (replicate_false_ne_true N i)
  · rw [h5]
    exact atMostOneOn_single N _

/-- Witness for at_most_one_led_on at N = 10 after 5 ticks. -/
theorem at_most_one_led_on_witness :
    1 ≤ 10 ∧ atMostOneOn 10 (cylon_run 10 5).2 :=
  ⟨by decide, at_most_one_led_on 10 5 (by decide)⟩

/-- C6 counterexample: the claim says the first indicator-control operation
of the run is turning indicator 0 on; in the code `last_led` is initialized
to 0 and the guard `last_led >= 0 && last_led <= 9` admits it, so the first
operation of the first tick is turning indicator 0 off, not on. -/
theorem first_tick_first_op_cex :
    (tick_led_ops NUM_LEDS initState).head? = some (0, false) ∧
    (tick_led_ops NUM_LEDS initState).head? ≠ some (0, true) := by
  decide

/-- C6 amended: on the very first tick the code first issues a turn-off write
for indicator 0 (the initial `last_led`) and only then turns indicator 0 on;
since all indicators start off, that first write is a no-op on the all-off
array, so no lit indicator is ever turned off before indicator 0 is on. -/
theorem first_tick_ops_amended :
    tick_led_ops NUM_LEDS initState = [(0, false), (0, true)] ∧
    led_write (List.replicate NUM_LEDS false) (0, false) =
      List.replicate NUM_LEDS false := by
  decide

/-- Delay computation of one tick (kcylon.c lines 123-128): for a positive
level, `thread_sleep_time = sleep_time * 10 * button_level` (C unsigned
arithmetic, hence the explicit mod 2^32, irrelevant at the values reachable
here); for a negative level, `thread_sleep_time = sleep_time / (-10 *
button_level)` (the int product `-10 * button_level` is positive and converts
to unsigned; C unsigned division truncates like Nat division); otherwise
`thread_sleep_time = sleep_time`. -/
def thread_sleep_time (button_level : Int) : Nat :=
  if button_level > 0 then (sleep_time * 10 * button_level.toNat) % 2 ^ 32
  else if button_level < 0 then sleep_time / ((-10) * button_level).toNat
  else sleep_time

/-- Modelled from the spec (§4.3 step 7, the formula the claim states):
level 0 gives base_sleep, positive level gives base_sleep * level, negative
level gives base_sleep / |level|. Written from the spec's words only, for
comparison against `thread_sleep_time` from the source. -/
def spec_delay (base_sleep : Nat) (level : Int) : Nat :=
  if level = 0 then base_sleep
  else if level > 0 then base_sleep * level.toNat
  else base_sleep / (-level).toNat

/-- C2 counterexample: at level 1 the code sleeps
sleep_time * 10 * 1 = 1000 ms, while the claimed formula gives
base_sleep * 1 = 100 ms. -/
theorem delay_formula_cex :
    thread_sleep_time 1 = 1000 ∧ spec_delay sleep_time 1 = 100 ∧
    thread_sleep_time 1 ≠ spec_delay sleep_time 1 := by
  decide

/-- Amended delay formula: level 0 gives base_sleep, positive level gives
base_sleep * (10 * level), negative level gives base_sleep / (10 * |level|)
with truncating integer division — the code's formulas carry an extra factor
of 10 relative to the claim. -/
def amended_delay (base_sleep : Nat) (level : Int) : Nat :=
  if level = 0 then base_sleep
  else if level > 0 then base_sleep * (10 * level.toNat)
  else base_sleep / (10 * (-level).toNat)

/-- C2 amended: on each tick, for every level in [-10, 10], the computed
delay is base_sleep for level 0, base_sleep * 10 * level for positive level,
and base_sleep / (10 * |level|) (exact truncating integer arithmetic) for
negative level. -/
theorem delay_formula_amended (l : Int) (h1 : -10 ≤ l) (h2 : l ≤ 10) :
    thread_sleep_time l = amended_delay sleep_time l := by
  unfold thread_sleep_time amended_delay sleep_time
  rcases lt_trichotomy l 0 with hl | hl | hl
  · have hng : ¬ (l > 0) := by omega
    have hnz : ¬ (l = 0) := by omega
    simp only [if_neg hng, if_pos hl, if_neg hnz]
    have h : ((-10) * l).toNat = 10 * (-l).toNat := by omega
    rw [h]
  · subst hl
    norm_num
  · have hnz : ¬ (l = 0) := by omega
    simp only [if_pos hl, if_neg hnz]
    have hlt : 100 * 10 * l.toNat < 2 ^ 32 :=
      lt_of_le_of_lt (by omega) (by norm_num : (10000 : Nat) < 2 ^ 32)
    rw [Nat.mod_eq_of_lt hlt]
    omega

/-- Witness for delay_formula_amended at level -3. -/
theorem delay_formula_amended_witness :
    -10 ≤ (-3 : Int) ∧ (-3 : Int) ≤ 10 ∧
    thread_sleep_time (-3) = amended_delay sleep_time (-3) :=
  ⟨by decide, by decide, delay_formula_amended (-3) (by decide) (by decide)⟩

/-- LED setup loop of kcylon_init (kcylon.c lines 147-155), over the list of
LED pins and parametrized by the environment's `gpio_is_valid` predicate: the
loop validates each pin in order; at the first invalid pin it returns -ENODEV
immediately with no further setup; a valid pin is requested, configured as
output and exported before the next one is examined. Returns the ret value
of the loop together with the list of pins whose setup completed. -/
def setup_leds (gpio_is_valid : Nat → Bool) : List Nat → Int × List Nat
  | [] => (0, [])
  | p :: ps =>
    if gpio_is_valid p then
      let r := setup_leds gpio_is_valid ps
      (r.1, p :: r.2)
    else (-ENODEV, [])

/-- Result of kcylon_init: the returned errno, whether kthread_run was
reached (the sweep worker created), and which LED pins completed setup. -/
structure InitResult where
  ret : Int
  thread_started : Bool
  leds_setup : List Nat
deriving DecidableEq, Repr

/-- kcylon_init (kcylon.c lines 142-186) as a function of the environment:
`gpio_is_valid` is the platform's pin-validity predicate, `irq_left_ok` and
`irq_right_ok` tell whether the two request_irq calls succeed, and
`thread_err` is some error code when kthread_run fails (IS_ERR) and none on
success. If the LED loop fails, init returns its -ENODEV immediately,
before the button setup, irq registration and thread creation; otherwise a
failed request_irq sets ret to -1 and the thread is started. -/
def kcylon_init (gpio_is_valid : Nat → Bool) (irq_left_ok irq_right_ok : Bool)
    (thread_err : Option Int) : InitResult :=
  let s := setup_leds gpio_is_valid led_pins
  if s.1 ≠ 0 then ⟨s.1, false, s.2⟩
  else
    let ret : Int := if irq_left_ok then 0 else -1
    let ret := if irq_right_ok then ret else -1
    match thread_err with
    | some e => ⟨e, false, s.2⟩
    | none => ⟨ret, true, s.2⟩

lemma setup_leds_fails (gpio_is_valid : Nat → Bool) (pins : List Nat)
    (h : ∃ p ∈ pins, gpio_is_valid p = false) :
    setup_leds gpio_is_valid pins = (-ENODEV, pins.takeWhile gpio_is_valid) := by
  induction pins with
  | nil => simp at h
  | cons p ps ih =>
    by_cases hp : gpio_is_valid p
    · have hps : ∃ q ∈ ps, gpio_is_valid q = false := by
        rcases h with ⟨q, hq, hqv⟩
        rcases List.mem_cons.mp hq with rfl | hq2
        · rw [hp] at hqv
          cases hqv
        · exact ⟨q, hq2, hqv⟩
      rw [setup_leds, if_pos hp, ih hps, List.takeWhile_cons, if_pos hp]
    · rw [setup_leds, if_neg hp, List.takeWhile_cons,
        if_neg hp]

/-- C8: if some LED pin fails gpio_is_valid, kcylon_init stops at the first
invalid pin and returns -ENODEV before the sweep worker thread is created:
the worker is not started and exactly the pins strictly before the first
invalid one were set up, for every environment (irq and thread outcomes). -/
theorem init_stops_on_invalid (gpio_is_valid : Nat → Bool)
    (irq_left_ok irq_right_ok : Bool) (thread_err : Option Int)
    (h : ∃ p ∈ led_pins, gpio_is_valid p = false) :
    kcylon_init gpio_is_valid irq_left_ok irq_right_ok thread_err =
      ⟨-ENODEV, false, led_pins.takeWhile gpio_is_valid⟩ := by
  unfold kcylon_init
  rw [setup_leds_fails gpio_is_valid led_pins h]
  rw [if_pos (by unfold ENODEV; norm_num)]

/-- Witness for init_stops_on_invalid: every pin except 26 (the third LED
pin) is valid, so setup stops after pins 65 and 46 with -ENODEV and no
thread. -/
theorem init_stops_on_invalid_witness :
    (∃ p ∈ led_pins, (fun q => decide (q ≠ 26)) p = false) ∧
    kcylon_init (fun q => decide (q ≠ 26)) true true none =
      ⟨-ENODEV, false, led_pins.takeWhile (fun q => decide (q ≠ 26))⟩ :=
  ⟨by decide, init_stops_on_invalid (fun q => decide (q ≠ 26)) true true none
    (by decide)⟩

/-- One action of kcylon_exit, in the order the code performs them. -/
inductive ExitAction where
  | thread_stop
  | led_off (i : Nat)
  | led_unexport (i : Nat)
  | led_free (i : Nat)
  | irq_free_left
  | irq_free_right
  | button_left_unexport
  | button_left_free
  | button_right_unexport
  | button_right_free
deriving DecidableEq, Repr

/-- Action sequence of kcylon_exit (kcylon.c lines 193-209): stop the worker
thread, then for each LED index in order set its value to 0, unexport it and
free it, then release the two button irqs and the two button pins. -/
def kcylon_exit_actions : List ExitAction :=
  [.thread_stop] ++
  ((List.range NUM_LEDS).map
    (fun i => [ExitAction.led_off i, .led_unexport i, .led_free i])).flatten ++
  [.irq_free_left, .irq_free_right, .button_left_unexport, .button_left_free,
   .button_right_unexport, .button_right_free]

/-- Effect of one exit action on the indicator state (indexed by LED array
position): only `led_off i` changes it, turning indicator i off. -/
def apply_exit_action (leds : Nat → Bool) : ExitAction → Nat → Bool
  | .led_off i => fun j => if j = i then false else leds j
  | _ => leds

/-- Indicator state after kcylon_exit runs, from an arbitrary state. -/
def leds_after_exit (leds : Nat → Bool) : Nat → Bool :=
  kcylon_exit_actions.foldl apply_exit_action leds

/-- C9: after kcylon_exit completes, all NUM_LEDS indicators are off,
whatever state they were in before, and the worker thread is stopped first
(the first exit action is kthread_stop, before any indicator write). -/
theorem exit_turns_all_off (leds : Nat → Bool) (i : Nat) (h : i < NUM_LEDS) :
    leds_after_exit leds i = false ∧
    kcylon_exit_actions.head? = some .thread_stop := by
  refine ⟨?_, rfl⟩
  have h10 : i < 10 := h
  interval_cases i <;> rfl

/-- Witness for exit_turns_all_off: from the all-on state, indicator 7 is off
after exit. -/
theorem exit_turns_all_off_witness :
    7 < NUM_LEDS ∧
    (leds_after_exit (fun _ => true) 7 = false ∧
     kcylon_exit_actions.head? = some .thread_stop) :=
  ⟨by decide, exit_turns_all_off (fun _ => true) 7 (by decide)⟩

/-- One source-level access to the shared `button_level` variable: its line
in kcylon.c, whether it writes, and whether a mutual-exclusion lock is held
there. The module declares no spinlock or mutex at all — `button_level` is a
bare `volatile int` (line 80) — so `lock_held` is false at every site. Sites:
line 145 writes 0 in kcylon_init; lines 123-126 read it in cylon's delay
computation; lines 220-222 are the decrement and clamp in the irq handler's
left branch; lines 226-228 the increment and clamp in the right branch; line
232 reads it for the handler's log message. -/
structure SharedAccess where
  line : Nat
  is_write : Bool
  lock_held : Bool
deriving DecidableEq, Repr

/-- Every access to `button_level` in kcylon.c, in source order. -/
def button_level_accesses : List SharedAccess :=
  [⟨145, true, false⟩, ⟨123, false, false⟩, ⟨124, false, false⟩,
   ⟨125, false, false⟩, ⟨126, false, false⟩, ⟨220, true, false⟩,
   ⟨221, false, false⟩, ⟨222, true, false⟩, ⟨226, true, false⟩,
   ⟨227, false, false⟩, ⟨228, true, false⟩, ⟨232, false, false⟩]

/-- C7 counterexample: the claim says the shared level is never read or
written outside a critical section holding its lock; in the code no lock
exists and no access site holds one — already the first access (the write in
kcylon_init, line 145) is lockless, as are the worker's reads and the
handler's writes. -/
theorem lock_discipline_cex :
    ¬ (∀ a ∈ button_level_accesses, a.lock_held = true) := by
  decide

/-- C7 amended: `button_level` is shared between the worker thread and the
interrupt handler as a bare volatile int: the module defines no
mutual-exclusion lock, and every one of its twelve access sites (worker
reads, handler writes, init write) executes without holding any lock, so
mutual exclusion between the two contexts is not enforced by the code. -/
theorem no_lock_accesses_amended :
    button_level_accesses ≠ [] ∧
    ∀ a ∈ button_level_accesses, a.lock_held = false := by
  decide

end KCylon
